import Mathlib

/-!
Verification of the address-book core (`entities.py`) of the contact
manager: field validators (Name, Phone, Birthday), Record mutations,
AddressBook lookup and the upcoming-birthday computation.

The Python classes are shallowly embedded: strings are Lean `String`s
(sequences of Unicode code points, as Python `str` is), `datetime.date`
values are a `Date` structure of year/month/day with the
proleptic-Gregorian ordinal arithmetic the Python `datetime` module uses,
exceptions become an error type `PyError` and fallible operations return
`Except`.  Record mutators return `Except (PyError × Record) Record`: on
error they carry the record state at the moment the exception is raised,
so that atomicity (no partial mutation before a raise) is expressible.

Character classes are modelled at Unicode fidelity: `str.isdigit()` is
the code-point table `pyDigitRanges` (characters of Numeric_Type Decimal
or Digit, e.g. '²' included), and the regex class `\d` used by
`strptime` is the table `ndStarts` of Nd (decimal digit) blocks, each a
run of ten code points whose `int()` value is its offset in the block.
`strftime`'s `%Y` renders the year unpadded (glibc behaviour), `%d`,
`%m` zero-padded to two digits.
-/

namespace AB

/-- The exception kinds the source can raise: the four custom exception
classes of `exceptions.py`, plus Python's builtin `ValueError` (raised by
`Name.__init__`, `list.remove`, `list.index` and `datetime.date`). -/
inductive PyError where
  | ValueError
  | NoRecordError
  | InvalidPhoneNumberFormatError
  | InvalidBirthdayFormatError
  | NoPhoneError
deriving DecidableEq, Repr

/-- `PHONE_LENGTH` constant of `entities.py`. -/
def PHONE_LENGTH : Nat := 10

/-- `DAYS_OF_UPCOMING_RANGE` constant of `entities.py`. -/
def DAYS_OF_UPCOMING_RANGE : Nat := 7

/-- `ISO_SATURDAY` constant of `entities.py`. -/
def ISO_SATURDAY : Nat := 6

/-- `ISO_SUNDAY` constant of `entities.py`. -/
def ISO_SUNDAY : Nat := 7

/-- `Name` field: wraps the (non-empty) name string. -/
structure Name where
  value : String
deriving DecidableEq, Repr

/-- `Name.__init__`: raises `ValueError` on an empty string, otherwise
stores the string verbatim. -/
def mkName (value : String) : Except PyError Name :=
  if value.length = 0 then .error .ValueError else .ok ⟨value⟩

/-- The code-point ranges on which Python's `str.isdigit()` is true:
characters with Numeric_Type Decimal or Digit (all Nd decimal digits,
plus superscripts such as '²' at 178, circled digits, etc.). -/
def pyDigitRanges : List (Nat × Nat) :=
  [(48, 57), (178, 179), (185, 185), (1632, 1641), (1776, 1785),
   (1984, 1993), (2406, 2415), (2534, 2543), (2662, 2671), (2790, 2799),
   (2918, 2927), (3046, 3055), (3174, 3183), (3302, 3311), (3430, 3439),
   (3558, 3567), (3664, 3673), (3792, 3801), (3872, 3881), (4160, 4169),
   (4240, 4249), (4969, 4977), (6112, 6121), (6160, 6169), (6470, 6479),
   (6608, 6618), (6784, 6793), (6800, 6809), (6992, 7001), (7088, 7097),
   (7232, 7241), (7248, 7257), (8304, 8304), (8308, 8313), (8320, 8329),
   (9312, 9320), (9332, 9340), (9352, 9360), (9450, 9450), (9461, 9469),
   (9471, 9471), (10102, 10110), (10112, 10120), (10122, 10130),
   (42528, 42537), (43216, 43225), (43264, 43273), (43472, 43481),
   (43504, 43513), (43600, 43609), (44016, 44025), (65296, 65305),
   (66720, 66729), (68160, 68163), (68912, 68921), (69216, 69224),
   (69714, 69722), (69734, 69743), (69872, 69881), (69942, 69951),
   (70096, 70105), (70384, 70393), (70736, 70745), (70864, 70873),
   (71248, 71257), (71360, 71369), (71472, 71481), (71904, 71913),
   (72016, 72025), (72784, 72793), (73040, 73049), (73120, 73129),
   (92768, 92777), (92864, 92873), (93008, 93017), (120782, 120831),
   (123200, 123209), (123632, 123641), (125264, 125273), (127232, 127242),
   (130032, 130041)]

/-- `str.isdigit()` on a single character. -/
def pyIsDigit (c : Char) : Bool :=
  pyDigitRanges.any (fun r => decide (r.1 ≤ c.toNat) && decide (c.toNat ≤ r.2))

/-- Start code points of the Unicode Nd (decimal digit) blocks: each is a
run of ten characters with digit values 0..9 in order.  The regex class
`\d` that `strptime` compiles matches exactly these characters. -/
def ndStarts : List Nat :=
  [48, 1632, 1776, 1984, 2406, 2534, 2662, 2790,
   2918, 3046, 3174, 3302, 3430, 3558, 3664, 3792,
   3872, 4160, 4240, 6112, 6160, 6470, 6608, 6784,
   6800, 6992, 7088, 7232, 7248, 42528, 43216, 43264,
   43472, 43504, 43600, 44016, 65296, 66720, 68912, 69734,
   69872, 69942, 70096, 70384, 70736, 70864, 71248, 71360,
   71472, 71904, 72016, 72784, 73040, 73120, 92768, 92864,
   93008, 120782, 120792, 120802, 120812, 120822, 123200, 123632,
   125264, 130032]

/-- The regex class `\d` (any Unicode decimal digit). -/
def isNdDigit (c : Char) : Bool :=
  ndStarts.any (fun s => decide (s ≤ c.toNat) && decide (c.toNat ≤ s + 9))

/-- The numeric value `int()` assigns to a decimal digit character: its
offset in its Nd block. -/
def ndVal (c : Char) : Nat :=
  match ndStarts.find? (fun s => decide (s ≤ c.toNat)
      && decide (c.toNat ≤ s + 9)) with
  | some s => c.toNat - s
  | none => 0

/-- `Phone` field: wraps the digit string.  Its `__eq__` compares the
wrapped values, which is exactly structural equality here. -/
structure Phone where
  value : String
deriving DecidableEq, Repr

/-- `Phone.__init__`: raises `InvalidPhoneNumberFormatError` if the length
is not `PHONE_LENGTH` or (the string being non-empty) `value.isdigit()`
is false, i.e. some character is not a Python digit; otherwise stores the
string verbatim. -/
def mkPhone (value : String) : Except PyError Phone :=
  if value.length ≠ PHONE_LENGTH then
    .error .InvalidPhoneNumberFormatError
  else if ¬ (value.data.all pyIsDigit) then
    .error .InvalidPhoneNumberFormatError
  else
    .ok ⟨value⟩

/-- `Field.__str__` on a Phone: `str` of the stored string. -/
def Phone.toStr (p : Phone) : String := p.value

/-- A calendar date, as `datetime.date` holds it: year, month, day. -/
structure Date where
  year : Nat
  month : Nat
  day : Nat
deriving DecidableEq, Repr

/-- Gregorian leap-year rule, as `datetime`'s internal `_is_leap`. -/
def isLeap (y : Nat) : Bool :=
  y % 4 = 0 && (y % 100 ≠ 0 || y % 400 = 0)

/-- Number of days in a month, as `datetime`'s `_days_in_month`. -/
def daysInMonth (y m : Nat) : Nat :=
  if m = 2 then (if isLeap y then 29 else 28)
  else if m = 4 ∨ m = 6 ∨ m = 9 ∨ m = 11 then 30
  else 31

/-- Days in year `y` before month `m`, as `datetime`'s `_days_before_month`. -/
def daysBeforeMonth (y : Nat) : Nat → Nat
  | 0 => 0
  | 1 => 0
  | m + 1 => daysBeforeMonth y m + daysInMonth y m

/-- Days before January 1st of year `y`, as `datetime`'s `_days_before_year`. -/
def daysBeforeYear (y : Nat) : Nat :=
  (y - 1) * 365 + (y - 1) / 4 - (y - 1) / 100 + (y - 1) / 400

/-- `date.toordinal()`: proleptic Gregorian ordinal, day 1 = 0001-01-01. -/
def Date.toordinal (d : Date) : Nat :=
  daysBeforeYear d.year + daysBeforeMonth d.year d.month + d.day

/-- `date.isoweekday()`: Monday = 1 .. Sunday = 7. -/
def Date.isoweekday (d : Date) : Nat :=
  if d.toordinal % 7 = 0 then 7 else d.toordinal % 7

/-- `date.__lt__`: dates compare lexicographically on (year, month, day). -/
def Date.ltDate (a b : Date) : Bool :=
  a.year < b.year
  || (a.year = b.year && (a.month < b.month
      || (a.month = b.month && a.day < b.day)))

/-- The day after `d` in the calendar (the effect of `+ timedelta(days=1)`). -/
def Date.nextDay (d : Date) : Date :=
  if d.day < daysInMonth d.year d.month then ⟨d.year, d.month, d.day + 1⟩
  else if d.month < 12 then ⟨d.year, d.month + 1, 1⟩
  else ⟨d.year + 1, 1, 1⟩

/-- `d + timedelta(days=n)` for a non-negative `n`. -/
def Date.addDays (d : Date) : Nat → Date
  | 0 => d
  | n + 1 => d.nextDay.addDays n

/-- The validity check `date.__new__` performs: `MINYEAR ≤ year ≤ MAXYEAR`,
`1 ≤ month ≤ 12`, `1 ≤ day ≤ days_in_month`. -/
def isValidDate (y m d : Nat) : Bool :=
  1 ≤ y && y ≤ 9999 && 1 ≤ m && m ≤ 12 && 1 ≤ d && d ≤ daysInMonth y m

/-- `date(y, m, d)`: raises `ValueError` unless the triple is a real
calendar date in the supported year range. -/
def mkDate (y m d : Nat) : Except PyError Date :=
  if isValidDate y m d then .ok ⟨y, m, d⟩ else .error .ValueError

/-- The ASCII digit character for `n` (`n` is always < 10 at call sites). -/
def digitChar (n : Nat) : Char :=
  match n with
  | 0 => '0' | 1 => '1' | 2 => '2' | 3 => '3' | 4 => '4'
  | 5 => '5' | 6 => '6' | 7 => '7' | 8 => '8' | _ => '9'

/-- Numeric value of an ASCII digit character. -/
def digitVal (c : Char) : Nat := c.toNat - 48

/-- Two-digit zero-padded rendering, as `strftime`'s `%d` / `%m`. -/
def pad2Chars (n : Nat) : List Char :=
  [digitChar (n / 10 % 10), digitChar (n % 10)]

/-- Four-digit zero-padded rendering, as `strftime`'s `%Y`. -/
def pad4Chars (n : Nat) : List Char :=
  [digitChar (n / 1000 % 10), digitChar (n / 100 % 10),
   digitChar (n / 10 % 10), digitChar (n % 10)]

/-- `strftime`'s `%Y`: the year as an unpadded decimal number (glibc
renders e.g. year 42 as "42").  Python dates always satisfy
`1 ≤ year ≤ 9999` (enforced by `date.__new__` and by `%Y`'s four-digit
parse), so the four cases cover the whole reachable domain. -/
def yearChars (n : Nat) : List Char :=
  if n < 10 then [digitChar n]
  else if n < 100 then [digitChar (n / 10), digitChar (n % 10)]
  else if n < 1000 then
    [digitChar (n / 100), digitChar (n / 10 % 10), digitChar (n % 10)]
  else pad4Chars n

/-- `strftime("%d.%m.%Y")` of a date (`Birthday.__str__`'s pattern). -/
def renderDMY (dt : Date) : String :=
  ⟨pad2Chars dt.day ++ '.' :: (pad2Chars dt.month ++ '.' :: yearChars dt.year)⟩

/-- `strftime("%Y.%m.%d")` of a date (`DATE_PATTERN` of `entities.py`). -/
def renderYMD (dt : Date) : String :=
  ⟨yearChars dt.year ++ '.' :: (pad2Chars dt.month ++ '.' :: pad2Chars dt.day)⟩

/-- `strptime`'s day directive `%d`, regex `3[01]|[12]\d|0[1-9]|[1-9]`;
`\d` matches any Unicode decimal digit and the matched text goes through
`int()`.  The alternatives are tried in order; committed choice is
equivalent to the regex's backtracking because every two-character
alternative ends in a digit while a successful one-character parse must
be followed by `.`. -/
def parseDay : List Char → Option (Nat × List Char)
  | c1 :: c2 :: rest =>
    if c1 = '3' ∧ (c2 = '0' ∨ c2 = '1') then some (30 + digitVal c2, rest)
    else if (c1 = '1' ∨ c1 = '2') ∧ isNdDigit c2 then
      some (10 * digitVal c1 + ndVal c2, rest)
    else if c1 = '0' ∧ ('1' ≤ c2 ∧ c2 ≤ '9') then some (digitVal c2, rest)
    else if '1' ≤ c1 ∧ c1 ≤ '9' then some (digitVal c1, c2 :: rest)
    else none
  | [c1] =>
    if '1' ≤ c1 ∧ c1 ≤ '9' then some (digitVal c1, []) else none
  | [] => none

/-- `strptime`'s month directive `%m`, regex `1[0-2]|0[1-9]|[1-9]`. -/
def parseMonth : List Char → Option (Nat × List Char)
  | c1 :: c2 :: rest =>
    if c1 = '1' ∧ ('0' ≤ c2 ∧ c2 ≤ '2') then some (10 + digitVal c2, rest)
    else if c1 = '0' ∧ ('1' ≤ c2 ∧ c2 ≤ '9') then some (digitVal c2, rest)
    else if '1' ≤ c1 ∧ c1 ≤ '9' then some (digitVal c1, c2 :: rest)
    else none
  | [c1] =>
    if '1' ≤ c1 ∧ c1 ≤ '9' then some (digitVal c1, []) else none
  | [] => none

/-- `strptime`'s year directive `%Y`, regex `\d\d\d\d`: exactly four
Unicode decimal digits, converted by `int()`. -/
def parseYear4 : List Char → Option (Nat × List Char)
  | c1 :: c2 :: c3 :: c4 :: rest =>
    if isNdDigit c1 ∧ isNdDigit c2 ∧ isNdDigit c3 ∧ isNdDigit c4 then
      some (1000 * ndVal c1 + 100 * ndVal c2
            + 10 * ndVal c3 + ndVal c4, rest)
    else none
  | _ => none

/-- The literal `.` of the format string. -/
def expectDot : List Char → Option (List Char)
  | '.' :: rest => some rest
  | _ => none

/-- `strptime(s, "%d.%m.%Y")` up to field extraction: day, dot, month,
dot, four-digit year, end of input (`strptime` rejects trailing data). -/
def parseDMY (s : String) : Option (Nat × Nat × Nat) :=
  match parseDay s.data with
  | none => none
  | some (d, rest1) =>
    match expectDot rest1 with
    | none => none
    | some rest2 =>
      match parseMonth rest2 with
      | none => none
      | some (m, rest3) =>
        match expectDot rest3 with
        | none => none
        | some rest4 =>
          match parseYear4 rest4 with
          | none => none
          | some (y, rest5) =>
            if rest5 = [] then some (d, m, y) else none

/-- `Birthday` field: stores a `datetime.date`. -/
structure Birthday where
  value : Date
deriving DecidableEq, Repr

/-- `Birthday.__init__`: `datetime.strptime(value, "%d.%m.%Y").date()`
inside a `try` that converts any `ValueError` (pattern mismatch or the
date constructor's range check) into `InvalidBirthdayFormatError`. -/
def mkBirthday (value : String) : Except PyError Birthday :=
  match parseDMY value with
  | none => .error .InvalidBirthdayFormatError
  | some (d, m, y) =>
    match mkDate y m d with
    | .error _ => .error .InvalidBirthdayFormatError
    | .ok dt => .ok ⟨dt⟩

/-- `Birthday.__str__`: `strftime` back to `DD.MM.YYYY`. -/
def Birthday.toStr (b : Birthday) : String := renderDMY b.value

/-- `Record`: one contact — a Name, an ordered list of Phones (duplicates
allowed), and at most one Birthday. -/
structure Record where
  name : Name
  phones : List Phone
  birthday : Option Birthday
deriving DecidableEq, Repr

/-- `Record.__init__(name)`: validates the name (propagating its
`ValueError`), starts with no phones and no birthday. -/
def mkRecord (name : String) : Except PyError Record :=
  match mkName name with
  | .error e => .error e
  | .ok n => .ok ⟨n, [], none⟩

/-- `list.remove`'s search: drop the first element equal to `p`, or report
failure when no element matches. -/
def removeFirstPhone : List Phone → Phone → Option (List Phone)
  | [], _ => none
  | q :: rest, p =>
    if q = p then some rest else (removeFirstPhone rest p).map (q :: ·)

/-- `list.index`: index of the first element equal to `p`, or failure. -/
def pyIndex : List Phone → Phone → Option Nat
  | [], _ => none
  | q :: rest, p =>
    if q = p then some 0 else (pyIndex rest p).map (· + 1)

/-- `Record.add_phone`: `self.phones.append(Phone(phone))` — the Phone is
constructed (and may raise) before any mutation. -/
def Record.add_phone (r : Record) (phone : String) :
    Except (PyError × Record) Record :=
  match mkPhone phone with
  | .error e => .error (e, r)
  | .ok p => .ok { r with phones := r.phones ++ [p] }

/-- `Record.remove_phone`: `self.phones.remove(Phone(phone))` — the Phone
construction may raise first; `list.remove` raises `ValueError` (not
`NoPhoneError`) when no entry matches, and otherwise drops exactly the
first matching entry. -/
def Record.remove_phone (r : Record) (phone : String) :
    Except (PyError × Record) Record :=
  match mkPhone phone with
  | .error e => .error (e, r)
  | .ok p =>
    match removeFirstPhone r.phones p with
    | none => .error (.ValueError, r)
    | some l => .ok { r with phones := l }

/-- `Record.edit_phone`: validate the old phone, look its index up with
`list.index` (which raises `ValueError` when absent), then the dead
`index < 0` guard raising `NoPhoneError`, then construct the new Phone and
assign it into the slot. -/
def Record.edit_phone (r : Record) (phone new_phone : String) :
    Except (PyError × Record) Record :=
  match mkPhone phone with
  | .error e => .error (e, r)
  | .ok phone_object =>
    match pyIndex r.phones phone_object with
    | none => .error (.ValueError, r)
    | some existing_phone_index =>
      if (existing_phone_index : Int) < 0 then .error (.NoPhoneError, r)
      else
        match mkPhone new_phone with
        | .error e => .error (e, r)
        | .ok p => .ok { r with phones := r.phones.set existing_phone_index p }

/-- `Record.add_birthday`: `self.birthday = Birthday(birthday)` — the
Birthday is constructed (and may raise) before the assignment. -/
def Record.add_birthday (r : Record) (birthday : String) :
    Except (PyError × Record) Record :=
  match mkBirthday birthday with
  | .error e => .error (e, r)
  | .ok b => .ok { r with birthday := some b }

/-- `AddressBook`: the underlying `UserDict` mapping name string → Record,
as an insertion-ordered association list with unique keys (Python dicts
preserve the original position when a key is overwritten). -/
structure AddressBook where
  data : List (String × Record)
deriving DecidableEq, Repr

/-- A freshly constructed, empty `AddressBook()`. -/
def AddressBook.empty : AddressBook := ⟨[]⟩

/-- `dict.__setitem__`: overwrite in place if the key exists, else append. -/
def dictSet : List (String × Record) → String → Record →
    List (String × Record)
  | [], k, v => [(k, v)]
  | (k', v') :: rest, k, v =>
    if k' = k then (k, v) :: rest else (k', v') :: dictSet rest k v

/-- `dict.get`: the value stored at the key, if any. -/
def dictGet : List (String × Record) → String → Option Record
  | [], _ => none
  | (k', v') :: rest, k => if k' = k then some v' else dictGet rest k

/-- `AddressBook.add_record`: `self.data[record.name.value] = record`. -/
def AddressBook.add_record (b : AddressBook) (record : Record) :
    AddressBook :=
  ⟨dictSet b.data record.name.value record⟩

/-- `AddressBook.find`: raise `NoRecordError` when the name is not a key,
otherwise return `self.data.get(name)` (an `Option`, as `dict.get` is). -/
def AddressBook.find (b : AddressBook) (name : String) :
    Except PyError (Option Record) :=
  if (dictGet b.data name).isNone then .error .NoRecordError
  else .ok (dictGet b.data name)

/-- `AddressBook.all_records`: `list(self.data.values())`. -/
def AddressBook.all_records (b : AddressBook) : List Record :=
  b.data.map Prod.snd

/-- One result entry of `get_upcoming_birthdays`: the dict
`{ "user": record, "congratulation_date": rendered date }`. -/
structure BirthdayEntry where
  user : Record
  congratulation_date : String
deriving DecidableEq, Repr

/-- The body of `get_upcoming_birthdays`'s loop for one record: skip
records without a birthday; build this year's date from the birthday's
month/day; if it is before today take next year's date instead; shift a
Saturday congratulation date by 2 days and a Sunday one by 1 day; emit an
entry when the (possibly shifted) date is at most
`DAYS_OF_UPCOMING_RANGE` days after today. -/
def processRecord (current_date : Date) (record : Record) :
    Except PyError (Option BirthdayEntry) :=
  match record.birthday with
  | none => .ok none
  | some birthday =>
    match mkDate current_date.year birthday.value.month birthday.value.day with
    | .error e => .error e
    | .ok this_year_birthday_date =>
      match (if this_year_birthday_date.ltDate current_date then
              mkDate (current_date.year + 1) birthday.value.month
                birthday.value.day
            else .ok this_year_birthday_date) with
      | .error e => .error e
      | .ok congrats_date0 =>
        let congrats_day_of_week := congrats_date0.isoweekday
        let congrats_date :=
          if congrats_day_of_week ≥ ISO_SATURDAY then
            congrats_date0.addDays
              (if congrats_day_of_week = ISO_SUNDAY then 1 else 2)
          else congrats_date0
        if (congrats_date.toordinal : Int) - (current_date.toordinal : Int)
            ≤ (DAYS_OF_UPCOMING_RANGE : Int) then
          .ok (some ⟨record, renderYMD congrats_date⟩)
        else
          .ok none

/-- The loop of `get_upcoming_birthdays` over `all_records()`: entries are
appended in record order; an exception aborts the whole call. -/
def collectUpcoming (current_date : Date) :
    List Record → Except PyError (List BirthdayEntry)
  | [] => .ok []
  | record :: rest =>
    match processRecord current_date record with
    | .error e => .error e
    | .ok none => collectUpcoming current_date rest
    | .ok (some entry) =>
      match collectUpcoming current_date rest with
      | .error e => .error e
      | .ok es => .ok (entry :: es)

/-- `AddressBook.get_upcoming_birthdays`, with "today"
(`datetime.today().date()` in the source) passed explicitly. -/
def AddressBook.get_upcoming_birthdays (b : AddressBook)
    (current_date : Date) : Except PyError (List BirthdayEntry) :=
  collectUpcoming current_date b.all_records

/-- A phone value that satisfies the `Phone` class invariant — exactly
the postcondition of `Phone.__init__`'s check: ten characters, each a
Python digit (`str.isdigit`). -/
def phoneOK (p : Phone) : Prop :=
  p.value.length = 10 ∧ p.value.data.all pyIsDigit = true

instance (p : Phone) : Decidable (phoneOK p) := by
  unfold phoneOK; infer_instance

/-- Every phone stored on the record satisfies the `Phone` invariant. -/
def Record.phonesOK (r : Record) : Prop :=
  ∀ p ∈ r.phones, phoneOK p

instance (r : Record) : Decidable r.phonesOK :=
  List.decidableBAll _ _

/-- The four mutating `Record` methods, as data (used to state atomicity
uniformly). -/
inductive RecOp where
  | add_phone (s : String)
  | remove_phone (s : String)
  | edit_phone (s t : String)
  | add_birthday (s : String)
deriving DecidableEq, Repr

/-- Dispatch a `RecOp` to the corresponding `Record` method. -/
def Record.applyOp (r : Record) : RecOp → Except (PyError × Record) Record
  | .add_phone s => r.add_phone s
  | .remove_phone s => r.remove_phone s
  | .edit_phone s t => r.edit_phone s t
  | .add_birthday s => r.add_birthday s

/-- The weekend-shift rule as the spec words it (§4.3 step 3): an ISO
Saturday (6) congratulation date advances by 2 days, an ISO Sunday (7) by
1 day, anything else is untouched.  Stated separately from the source's
formulation (`if w ≥ ISO_SATURDAY then add (if w = ISO_SUNDAY then 1 else
2)`) so the two can be compared. -/
def specShiftWeekend (d : Date) : Date :=
  if d.isoweekday = 6 then d.addDays 2
  else if d.isoweekday = 7 then d.addDays 1
  else d

/-- C5 (counterexample): `Phone("²234567890")` succeeds — the string has
length 10 and every character passes `str.isdigit()` — even though '²'
(superscript two) is not a decimal digit in either the ASCII or the
Unicode Nd sense, refuting the claim that such strings fail with
`InvalidPhoneNumberFormatError`. -/
theorem C5_counterexample :
    mkPhone "²234567890" = .ok ⟨"²234567890"⟩
    ∧ '²' ∈ "²234567890".data
    ∧ Char.isDigit '²' = false
    ∧ isNdDigit '²' = false :=
  ⟨rfl, by decide, rfl, rfl⟩

/-- C5 (amended): a Phone constructed from `s` succeeds exactly when `s`
has ten characters each passing Python's `str.isdigit()` (Unicode
Decimal or Digit type — a superset of the decimal digits); in
particular every ten-ASCII-digit string (code points 48–57) succeeds,
`s` is stored verbatim, and `str` returns it unchanged; all other
strings fail with `InvalidPhoneNumberFormatError`. -/
theorem C5_phone_validation (s : String) :
    mkPhone s =
      (if s.length = 10 ∧ s.data.all pyIsDigit then
        Except.ok ⟨s⟩
      else
        Except.error PyError.InvalidPhoneNumberFormatError)
    ∧ ((s.length = 10 ∧ ∀ c ∈ s.data, 48 ≤ c.toNat ∧ c.toNat ≤ 57) →
        mkPhone s = .ok ⟨s⟩)
    ∧ Phone.toStr ⟨s⟩ = s := by
  have h1 : mkPhone s =
      (if s.length = 10 ∧ s.data.all pyIsDigit then
        Except.ok ⟨s⟩
      else
        Except.error PyError.InvalidPhoneNumberFormatError) := by
    unfold mkPhone PHONE_LENGTH
    by_cases hl : s.length = 10
    · by_cases hd : s.data.all pyIsDigit
      · simp [hl, hd]
      · simp [hl, hd]
    · simp [hl]
  refine ⟨h1, ?_, rfl⟩
  intro ⟨hl, hascii⟩
  rw [h1]
  refine if_pos ⟨hl, ?_⟩
  refine List.all_eq_true.mpr fun c hc => ?_
  refine List.any_eq_true.mpr ⟨(48, 57), List.mem_cons_self _ _, ?_⟩
  rw [decide_eq_true (hascii c hc).1, decide_eq_true (hascii c hc).2]
  rfl

/-- C5 (witness): the all-ASCII-digit string "0123456789" is accepted
and stored verbatim. -/
theorem C5_witness : mkPhone "0123456789" = .ok ⟨"0123456789"⟩ :=
  (C5_phone_validation "0123456789").2.1 ⟨by decide, by decide⟩

theorem mkPhone_error_kind {s : String} {e : PyError}
    (h : mkPhone s = .error e) : e = PyError.InvalidPhoneNumberFormatError := by
  unfold mkPhone at h
  split at h
  · exact (Except.error.injEq _ _).mp h.symm
  · split at h
    · exact (Except.error.injEq _ _).mp h.symm
    · exact absurd h (by simp)

theorem mkPhone_ok_phoneOK {s : String} {p : Phone}
    (h : mkPhone s = .ok p) : phoneOK p := by
  unfold mkPhone at h
  split at h
  · exact absurd h (by simp)
  · split at h
    · exact absurd h (by simp)
    · rename_i h1 h2
      cases (Except.ok.injEq _ _).mp h
      refine ⟨?_, by simpa using h2⟩
      simp only [PHONE_LENGTH, ne_eq, not_not] at h1
      exact h1

theorem pyIndex_eq_none {l : List Phone} {p : Phone} (h : p ∉ l) :
    pyIndex l p = none := by
  induction l with
  | nil => rfl
  | cons q rest ih =>
    simp only [List.mem_cons, not_or] at h
    rw [pyIndex, if_neg (fun hq => h.1 hq.symm), ih h.2]
    rfl

theorem pyIndex_of_mem {l : List Phone} {p : Phone} (h : p ∈ l) :
    ∃ i, pyIndex l p = some i := by
  induction l with
  | nil => cases h
  | cons q rest ih =>
    by_cases hq : q = p
    · exact ⟨0, by rw [pyIndex, if_pos hq]⟩
    · have hmem : p ∈ rest := by
        cases List.mem_cons.mp h with
        | inl h' => exact absurd h'.symm hq
        | inr h' => exact h'
      obtain ⟨i, hi⟩ := ih hmem
      refine ⟨i + 1, ?_⟩
      rw [pyIndex, if_neg hq, hi]
      rfl

theorem removeFirstPhone_eq_none {l : List Phone} {p : Phone} (h : p ∉ l) :
    removeFirstPhone l p = none := by
  induction l with
  | nil => rfl
  | cons q rest ih =>
    simp only [List.mem_cons, not_or] at h
    rw [removeFirstPhone, if_neg (fun hq => h.1 hq.symm), ih h.2]
    rfl

theorem removeFirstPhone_append (l1 l2 : List Phone) (p : Phone)
    (h : p ∉ l1) : removeFirstPhone (l1 ++ p :: l2) p = some (l1 ++ l2) := by
  induction l1 with
  | nil => rw [List.nil_append, removeFirstPhone, if_pos rfl, List.nil_append]
  | cons q rest ih =>
    simp only [List.mem_cons, not_or] at h
    rw [List.cons_append, removeFirstPhone, if_neg (fun hq => h.1 hq.symm),
      ih h.2]
    rfl

theorem removeFirstPhone_subset {l l' : List Phone} {p : Phone}
    (h : removeFirstPhone l p = some l') : ∀ q ∈ l', q ∈ l := by
  induction l generalizing l' with
  | nil => cases h
  | cons x rest ih =>
    unfold removeFirstPhone at h
    split at h
    · cases (Option.some.injEq _ _).mp h
      intro q hq
      exact List.mem_cons_of_mem _ hq
    · cases hrec : removeFirstPhone rest p with
      | none => rw [hrec] at h; cases h
      | some l'' =>
        rw [hrec] at h
        cases (Option.some.injEq _ _).mp h
        intro q hq
        rcases List.mem_cons.mp hq with h' | h'
        · exact h' ▸ List.mem_cons_self _ _
        · exact List.mem_cons_of_mem _ (ih hrec _ h')

theorem isoweekday_bounds (d : Date) :
    1 ≤ d.isoweekday ∧ d.isoweekday ≤ 7 := by
  unfold Date.isoweekday
  have h : d.toordinal % 7 < 7 := Nat.mod_lt _ (by norm_num)
  split <;> omega

theorem daysInMonth_le_31 (y m : Nat) : daysInMonth y m ≤ 31 := by
  unfold daysInMonth
  split_ifs <;> omega

/-- C1 (counterexample): on a record holding only "1111111111", editing
the absent (but well-formed) "2222222222" to the malformed "abc" fails
with the generic `ValueError` raised by `list.index`, not with
`InvalidPhoneNumberFormatError`: the new number is never validated when
the old one is absent. -/
theorem C1_counterexample :
    Record.edit_phone ⟨⟨"Bob"⟩, [⟨"1111111111"⟩], none⟩ "2222222222" "abc"
      = .error (PyError.ValueError, ⟨⟨"Bob"⟩, [⟨"1111111111"⟩], none⟩)
    ∧ PyError.ValueError ≠ PyError.InvalidPhoneNumberFormatError :=
  ⟨rfl, by decide⟩

/-- C1 (amended): when the old number is valid, `edit_phone` with a
malformed new number fails with `InvalidPhoneNumberFormatError` exactly
when the old number is present on the record; when it is absent, the
`list.index` lookup raises the generic `ValueError` first and the new
number is never validated. -/
theorem C1_edit_phone_error_order (r : Record) (old new : String) (p : Phone)
    (hold : mkPhone old = .ok p)
    (hnew : mkPhone new = .error PyError.InvalidPhoneNumberFormatError) :
    r.edit_phone old new =
      .error ((if p ∈ r.phones then PyError.InvalidPhoneNumberFormatError
               else PyError.ValueError), r) := by
  by_cases hmem : p ∈ r.phones
  · obtain ⟨i, hi⟩ := pyIndex_of_mem hmem
    simp only [Record.edit_phone, hold, hi, hnew]
    rw [if_neg (by omega : ¬ ((i : Int) < 0)), if_pos hmem]
  · simp only [Record.edit_phone, hold, pyIndex_eq_none hmem]
    rw [if_neg hmem]

/-- C1 (witness): with "1111111111" present, editing it to the malformed
"abc" does fail with `InvalidPhoneNumberFormatError`. -/
theorem C1_witness :
    Record.edit_phone ⟨⟨"Bob"⟩, [⟨"1111111111"⟩], none⟩ "1111111111" "abc"
      = .error (PyError.InvalidPhoneNumberFormatError,
                ⟨⟨"Bob"⟩, [⟨"1111111111"⟩], none⟩) := by
  have h := C1_edit_phone_error_order ⟨⟨"Bob"⟩, [⟨"1111111111"⟩], none⟩
    "1111111111" "abc" ⟨"1111111111"⟩ rfl rfl
  rw [h]
  rfl

/-- C2 (counterexample): with today = 2024-06-10, the record with
birthday 08.06.1990 is NOT in the upcoming-birthday result at all (the
result is empty), refuting the claim that it is included with
congratulation date "2024.06.10". -/
theorem C2_counterexample :
    Record.add_birthday ⟨⟨"Alice"⟩, [], none⟩ "08.06.1990"
      = .ok ⟨⟨"Alice"⟩, [], some ⟨⟨1990, 6, 8⟩⟩⟩
    ∧ ¬ ∃ es, (AddressBook.empty.add_record
          ⟨⟨"Alice"⟩, [], some ⟨⟨1990, 6, 8⟩⟩⟩).get_upcoming_birthdays
            ⟨2024, 6, 10⟩ = .ok es
        ∧ (⟨⟨⟨"Alice"⟩, [], some ⟨⟨1990, 6, 8⟩⟩⟩, "2024.06.10"⟩ :
            BirthdayEntry) ∈ es := by
  constructor
  · rfl
  · rintro ⟨es, h1, h2⟩
    have h0 : (AddressBook.empty.add_record
        ⟨⟨"Alice"⟩, [], some ⟨⟨1990, 6, 8⟩⟩⟩).get_upcoming_birthdays
          ⟨2024, 6, 10⟩ = .ok [] := rfl
    rw [h0] at h1
    injection h1 with h1
    subst h1
    exact absurd h2 (List.not_mem_nil _)

/-- C2 (amended): with today = 2024-06-10, the this-year date Jun 8 2024
is before today, so the congratulation date is computed for 2025; Jun 8
2025 is an ISO Sunday, shifted by one day to Jun 9 2025, which is 364
days ahead, far beyond the 7-day window — the record is excluded and the
result is empty. -/
theorem C2_amended_excluded :
    Date.ltDate ⟨2024, 6, 8⟩ ⟨2024, 6, 10⟩ = true
    ∧ Date.isoweekday ⟨2025, 6, 8⟩ = ISO_SUNDAY
    ∧ Date.addDays ⟨2025, 6, 8⟩ 1 = ⟨2025, 6, 9⟩
    ∧ (Date.toordinal ⟨2025, 6, 9⟩ : Int)
        - (Date.toordinal ⟨2024, 6, 10⟩ : Int) = 364
    ∧ (AddressBook.empty.add_record
        ⟨⟨"Alice"⟩, [], some ⟨⟨1990, 6, 8⟩⟩⟩).get_upcoming_birthdays
          ⟨2024, 6, 10⟩ = .ok [] :=
  ⟨rfl, rfl, rfl, by decide, rfl⟩

/-- C4 (counterexample): removing a well-formed number from a record that
does not hold it fails with the generic `ValueError` raised by
`list.remove`, not with `NoPhoneError`. -/
theorem C4_counterexample :
    Record.remove_phone ⟨⟨"Bob"⟩, [], none⟩ "1234567890"
      = .error (PyError.ValueError, ⟨⟨"Bob"⟩, [], none⟩)
    ∧ PyError.ValueError ≠ PyError.NoPhoneError :=
  ⟨rfl, by decide⟩

/-- C4 (amended): for a valid phone string, `remove_phone` fails with the
generic `ValueError` (not `NoPhoneError`) when no entry matches by value,
and otherwise removes exactly the first matching entry, keeping the rest
of the sequence in order. -/
theorem C4_remove_phone_behavior (r : Record) (raw : String) (p : Phone)
    (hp : mkPhone raw = .ok p) :
    (p ∉ r.phones → r.remove_phone raw = .error (PyError.ValueError, r))
    ∧ ∀ l1 l2, r.phones = l1 ++ p :: l2 → p ∉ l1 →
        r.remove_phone raw = .ok { r with phones := l1 ++ l2 } := by
  constructor
  · intro habs
    simp only [Record.remove_phone, hp, removeFirstPhone_eq_none habs]
  · intro l1 l2 hsplit hnotl1
    simp only [Record.remove_phone, hp, hsplit,
      removeFirstPhone_append l1 l2 p hnotl1]

/-- C4 (witness): removing "1111111111" from a record holding it twice
drops only the first occurrence and preserves the order of the rest. -/
theorem C4_witness :
    Record.remove_phone
      ⟨⟨"Bob"⟩, [⟨"1111111111"⟩, ⟨"2222222222"⟩, ⟨"1111111111"⟩], none⟩
      "1111111111"
      = .ok ⟨⟨"Bob"⟩, [⟨"2222222222"⟩, ⟨"1111111111"⟩], none⟩ := by
  have h := (C4_remove_phone_behavior
    ⟨⟨"Bob"⟩, [⟨"1111111111"⟩, ⟨"2222222222"⟩, ⟨"1111111111"⟩], none⟩
    "1111111111" ⟨"1111111111"⟩ rfl).2
    [] [⟨"2222222222"⟩, ⟨"1111111111"⟩] rfl (by simp)
  exact h

/-- C7: `find` fails with `NoRecordError` exactly when the name keys no
stored entry, returns the stored record otherwise, and in particular
fails on the empty book for every name. -/
theorem C7_find (b : AddressBook) (name : String) :
    (b.find name = .error PyError.NoRecordError
      ↔ dictGet b.data name = none)
    ∧ (∀ r, dictGet b.data name = some r → b.find name = .ok (some r))
    ∧ AddressBook.empty.find name = .error PyError.NoRecordError := by
  refine ⟨?_, ?_, rfl⟩
  · unfold AddressBook.find
    cases h : dictGet b.data name with
    | none => simp [h]
    | some r => simp [h]
  · intro r h
    unfold AddressBook.find
    simp [h]

/-- C7 (witness): a stored record is returned, and lookup on the empty
book fails with `NoRecordError`. -/
theorem C7_witness :
    (AddressBook.empty.add_record ⟨⟨"Bob"⟩, [], none⟩).find "Bob"
      = .ok (some ⟨⟨"Bob"⟩, [], none⟩)
    ∧ AddressBook.empty.find "Zoe" = .error PyError.NoRecordError :=
  ⟨(C7_find (AddressBook.empty.add_record ⟨⟨"Bob"⟩, [], none⟩) "Bob").2.1
      ⟨⟨"Bob"⟩, [], none⟩ rfl,
   (C7_find AddressBook.empty "Zoe").2.2⟩

/-- C9: `edit_phone` can never raise `NoPhoneError`: every error it
produces is of another kind, and in the absent-old-phone case the
`list.index` lookup raises the generic `ValueError` (the `index < 0`
guard is dead code, indices being non-negative). -/
theorem C9_edit_phone_never_noPhone (r : Record) (old new : String) :
    (∀ e r', r.edit_phone old new = .error (e, r')
      → e ≠ PyError.NoPhoneError)
    ∧ ∀ p, mkPhone old = .ok p → p ∉ r.phones →
        r.edit_phone old new = .error (PyError.ValueError, r) := by
  constructor
  · intro e r' h
    cases hold : mkPhone old with
    | error e0 =>
      simp only [Record.edit_phone, hold, Except.error.injEq,
        Prod.mk.injEq] at h
      rw [← h.1, mkPhone_error_kind hold]
      decide
    | ok p =>
      cases hidx : pyIndex r.phones p with
      | none =>
        simp only [Record.edit_phone, hold, hidx, Except.error.injEq,
          Prod.mk.injEq] at h
        rw [← h.1]
        decide
      | some i =>
        cases hnew : mkPhone new with
        | error e1 =>
          simp only [Record.edit_phone, hold, hidx, hnew] at h
          rw [if_neg (by omega : ¬ ((i : Int) < 0))] at h
          simp only [Except.error.injEq, Prod.mk.injEq] at h
          rw [← h.1, mkPhone_error_kind hnew]
          decide
        | ok pnew =>
          simp only [Record.edit_phone, hold, hidx, hnew] at h
          rw [if_neg (by omega : ¬ ((i : Int) < 0))] at h
          exact Except.noConfusion h
  · intro p hp habs
    simp only [Record.edit_phone, hp, pyIndex_eq_none habs]

/-- C9 (witness): editing on an empty phone list errors with the generic
`ValueError`, which is indeed not `NoPhoneError`. -/
theorem C9_witness :
    Record.edit_phone ⟨⟨"Eve"⟩, [], none⟩ "3333333333" "4444444444"
      = .error (PyError.ValueError, ⟨⟨"Eve"⟩, [], none⟩)
    ∧ PyError.ValueError ≠ PyError.NoPhoneError :=
  ⟨(C9_edit_phone_never_noPhone ⟨⟨"Eve"⟩, [], none⟩ "3333333333"
      "4444444444").2 ⟨"3333333333"⟩ rfl (List.not_mem_nil _),
   (C9_edit_phone_never_noPhone ⟨⟨"Eve"⟩, [], none⟩ "3333333333"
      "4444444444").1 PyError.ValueError ⟨⟨"Eve"⟩, [], none⟩
      (by rw [(C9_edit_phone_never_noPhone ⟨⟨"Eve"⟩, [], none⟩ "3333333333"
        "4444444444").2 ⟨"3333333333"⟩ rfl (List.not_mem_nil _)])⟩

/-- C8: the ten-decimal-digit invariant holds for every phone stored on a
record: a fresh record has no phones, and each mutating operation only
ever inserts phones that passed `Phone` construction. -/
theorem C8_phone_invariant :
    (∀ (name : String) (r : Record), mkRecord name = .ok r → r.phonesOK)
    ∧ (∀ (r : Record) (s : String) (r' : Record),
        r.phonesOK → r.add_phone s = .ok r' → r'.phonesOK)
    ∧ (∀ (r : Record) (s : String) (r' : Record),
        r.phonesOK → r.remove_phone s = .ok r' → r'.phonesOK)
    ∧ (∀ (r : Record) (s t : String) (r' : Record),
        r.phonesOK → r.edit_phone s t = .ok r' → r'.phonesOK)
    ∧ (∀ (r : Record) (s : String) (r' : Record),
        r.phonesOK → r.add_birthday s = .ok r' → r'.phonesOK) := by
  refine ⟨?_, ?_, ?_, ?_, ?_⟩
  · intro name r h
    cases hn : mkName name with
    | error e =>
      simp only [mkRecord, hn] at h
      exact Except.noConfusion h
    | ok n =>
      simp only [mkRecord, hn, Except.ok.injEq] at h
      subst h
      intro p hp
      exact absurd hp (List.not_mem_nil _)
  · intro r s r' hOK h
    cases hp : mkPhone s with
    | error e =>
      simp only [Record.add_phone, hp] at h
      exact Except.noConfusion h
    | ok p =>
      simp only [Record.add_phone, hp, Except.ok.injEq] at h
      subst h
      intro q hq
      rcases List.mem_append.mp hq with hq' | hq'
      · exact hOK q hq'
      · rw [List.mem_singleton.mp hq']
        exact mkPhone_ok_phoneOK hp
  · intro r s r' hOK h
    cases hp : mkPhone s with
    | error e =>
      simp only [Record.remove_phone, hp] at h
      exact Except.noConfusion h
    | ok p =>
      cases hrm : removeFirstPhone r.phones p with
      | none =>
        simp only [Record.remove_phone, hp, hrm] at h
        exact Except.noConfusion h
      | some l =>
        simp only [Record.remove_phone, hp, hrm, Except.ok.injEq] at h
        subst h
        intro q hq
        exact hOK q (removeFirstPhone_subset hrm q hq)
  · intro r s t r' hOK h
    cases hp : mkPhone s with
    | error e =>
      simp only [Record.edit_phone, hp] at h
      exact Except.noConfusion h
    | ok p =>
      cases hidx : pyIndex r.phones p with
      | none =>
        simp only [Record.edit_phone, hp, hidx] at h
        exact Except.noConfusion h
      | some i =>
        cases hn : mkPhone t with
        | error e =>
          simp only [Record.edit_phone, hp, hidx, hn] at h
          rw [if_neg (by omega : ¬ ((i : Int) < 0))] at h
          exact Except.noConfusion h
        | ok pn =>
          simp only [Record.edit_phone, hp, hidx, hn] at h
          rw [if_neg (by omega : ¬ ((i : Int) < 0))] at h
          simp only [Except.ok.injEq] at h
          subst h
          intro q hq
          rcases List.mem_or_eq_of_mem_set hq with hq' | hq'
          · exact hOK q hq'
          · rw [hq']
            exact mkPhone_ok_phoneOK hn
  · intro r s r' hOK h
    cases hb : mkBirthday s with
    | error e =>
      simp only [Record.add_birthday, hb] at h
      exact Except.noConfusion h
    | ok b =>
      simp only [Record.add_birthday, hb, Except.ok.injEq] at h
      subst h
      intro q hq
      exact hOK q hq

/-- C8 (witness): a record built by a successful `add_phone` on a fresh
record satisfies the invariant. -/
theorem C8_witness :
    Record.phonesOK ⟨⟨"Ann"⟩, [⟨"0123456789"⟩], none⟩ :=
  C8_phone_invariant.2.1 ⟨⟨"Ann"⟩, [], none⟩ "0123456789"
    ⟨⟨"Ann"⟩, [⟨"0123456789"⟩], none⟩ (by decide) rfl

theorem processRecord_shift_window (today : Date) (r : Record)
    (b : Birthday) (tyd c0 : Date)
    (hb : r.birthday = some b)
    (h1 : mkDate today.year b.value.month b.value.day = .ok tyd)
    (hcon : (if tyd.ltDate today then
        mkDate (today.year + 1) b.value.month b.value.day
      else .ok tyd) = .ok c0) :
    processRecord today r = .ok
      (if (Date.toordinal (specShiftWeekend c0) : Int)
          - (Date.toordinal today : Int) ≤ 7 then
        some ⟨r, renderYMD (specShiftWeekend c0)⟩
      else none) := by
  have hbnd := isoweekday_bounds c0
  have hshift : (if Date.isoweekday c0 ≥ ISO_SATURDAY then
      Date.addDays c0 (if Date.isoweekday c0 = ISO_SUNDAY then 1 else 2)
    else c0) = specShiftWeekend c0 := by
    unfold specShiftWeekend ISO_SATURDAY ISO_SUNDAY
    by_cases h6 : Date.isoweekday c0 = 6
    · rw [if_pos (by omega), if_neg (by omega), if_pos h6]
    · by_cases h7 : Date.isoweekday c0 = 7
      · rw [if_pos (by omega), if_pos h7, if_neg h6, if_pos h7]
      · rw [if_neg (by omega), if_neg h6, if_neg h7]
  simp only [processRecord, hb, h1, hcon]
  rw [hshift]
  have hD : (DAYS_OF_UPCOMING_RANGE : Int) = 7 := rfl
  rw [hD]
  by_cases hw : (Date.toordinal (specShiftWeekend c0) : Int)
      - (Date.toordinal today : Int) ≤ 7
  · rw [if_pos hw, if_pos hw]
  · rw [if_neg hw, if_neg hw]

/-- C3: for a record with a birthday, on a one-record book, the weekend
shift (Saturday → +2 days, Sunday → +1 day) is applied to the
congratulation date before the window test, and the record is included
exactly when the shifted date is at most 7 days after today (0 allowed,
no lower bound). -/
theorem C3_shift_then_window (today : Date) (r : Record) (b : Birthday)
    (tyd nyd : Date)
    (hb : r.birthday = some b)
    (h1 : mkDate today.year b.value.month b.value.day = .ok tyd)
    (h2 : mkDate (today.year + 1) b.value.month b.value.day = .ok nyd) :
    (AddressBook.empty.add_record r).get_upcoming_birthdays today =
      .ok (if (Date.toordinal (specShiftWeekend
              (if tyd.ltDate today then nyd else tyd)) : Int)
            - (Date.toordinal today : Int) ≤ 7 then
          [⟨r, renderYMD (specShiftWeekend
            (if tyd.ltDate today then nyd else tyd))⟩]
        else []) := by
  have hpr := processRecord_shift_window today r b tyd
    (if tyd.ltDate today then nyd else tyd) hb h1 (by
      cases hlt : tyd.ltDate today with
      | false => simp
      | true => simpa using h2)
  show collectUpcoming today [r] = _
  by_cases hw : (Date.toordinal (specShiftWeekend
      (if tyd.ltDate today then nyd else tyd)) : Int)
      - (Date.toordinal today : Int) ≤ 7
  · rw [if_pos hw] at hpr
    rw [if_pos hw]
    simp only [collectUpcoming, hpr]
  · rw [if_neg hw] at hpr
    rw [if_neg hw]
    simp only [collectUpcoming, hpr]

/-- C3 (witness): today = Monday 2024-06-03, birthday 08.06.1990: Jun 8
2024 is a Saturday, shifted to Monday Jun 10 2024, 7 days ahead, so the
record is included with congratulation date "2024.06.10". -/
theorem C3_witness :
    mkDate 2024 6 8 = .ok ⟨2024, 6, 8⟩
    ∧ (AddressBook.empty.add_record
        ⟨⟨"Alice"⟩, [], some ⟨⟨1990, 6, 8⟩⟩⟩).get_upcoming_birthdays
          ⟨2024, 6, 3⟩
      = .ok [⟨⟨⟨"Alice"⟩, [], some ⟨⟨1990, 6, 8⟩⟩⟩, "2024.06.10"⟩] := by
  constructor
  · rfl
  · have h := C3_shift_then_window ⟨2024, 6, 3⟩
      ⟨⟨"Alice"⟩, [], some ⟨⟨1990, 6, 8⟩⟩⟩ ⟨⟨1990, 6, 8⟩⟩
      ⟨2024, 6, 8⟩ ⟨2025, 6, 8⟩ rfl rfl rfl
    rw [h]
    rfl

/-- C10: every erroring Record mutation leaves the record exactly as it
was — validation and lookup happen before any mutation is applied. -/
theorem C10_atomic_on_error (r : Record) (op : RecOp) (e : PyError)
    (r' : Record) (h : r.applyOp op = .error (e, r')) : r' = r := by
  cases op with
  | add_phone s =>
    cases hp : mkPhone s with
    | error e0 =>
      simp only [Record.applyOp, Record.add_phone, hp, Except.error.injEq,
        Prod.mk.injEq] at h
      exact h.2.symm
    | ok p =>
      simp only [Record.applyOp, Record.add_phone, hp] at h
      exact Except.noConfusion h
  | remove_phone s =>
    cases hp : mkPhone s with
    | error e0 =>
      simp only [Record.applyOp, Record.remove_phone, hp, Except.error.injEq,
        Prod.mk.injEq] at h
      exact h.2.symm
    | ok p =>
      cases hrm : removeFirstPhone r.phones p with
      | none =>
        simp only [Record.applyOp, Record.remove_phone, hp, hrm,
          Except.error.injEq, Prod.mk.injEq] at h
        exact h.2.symm
      | some l =>
        simp only [Record.applyOp, Record.remove_phone, hp, hrm] at h
        exact Except.noConfusion h
  | edit_phone s t =>
    cases hp : mkPhone s with
    | error e0 =>
      simp only [Record.applyOp, Record.edit_phone, hp, Except.error.injEq,
        Prod.mk.injEq] at h
      exact h.2.symm
    | ok p =>
      cases hidx : pyIndex r.phones p with
      | none =>
        simp only [Record.applyOp, Record.edit_phone, hp, hidx,
          Except.error.injEq, Prod.mk.injEq] at h
        exact h.2.symm
      | some i =>
        cases hn : mkPhone t with
        | error e1 =>
          simp only [Record.applyOp, Record.edit_phone, hp, hidx, hn] at h
          rw [if_neg (by omega : ¬ ((i : Int) < 0))] at h
          simp only [Except.error.injEq, Prod.mk.injEq] at h
          exact h.2.symm
        | ok pn =>
          simp only [Record.applyOp, Record.edit_phone, hp, hidx, hn] at h
          rw [if_neg (by omega : ¬ ((i : Int) < 0))] at h
          exact Except.noConfusion h
  | add_birthday s =>
    cases hb : mkBirthday s with
    | error e0 =>
      simp only [Record.applyOp, Record.add_birthday, hb, Except.error.injEq,
        Prod.mk.injEq] at h
      exact h.2.symm
    | ok b =>
      simp only [Record.applyOp, Record.add_birthday, hb] at h
      exact Except.noConfusion h

/-- C10 (witness): a failing `add_phone` reports the record unchanged. -/
theorem C10_witness :
    Record.applyOp ⟨⟨"Bob"⟩, [⟨"1111111111"⟩], none⟩ (RecOp.add_phone "abc")
      = .error (PyError.InvalidPhoneNumberFormatError,
                ⟨⟨"Bob"⟩, [⟨"1111111111"⟩], none⟩)
    ∧ (⟨⟨"Bob"⟩, [⟨"1111111111"⟩], none⟩ : Record)
      = ⟨⟨"Bob"⟩, [⟨"1111111111"⟩], none⟩ :=
  ⟨rfl, C10_atomic_on_error ⟨⟨"Bob"⟩, [⟨"1111111111"⟩], none⟩
    (RecOp.add_phone "abc") PyError.InvalidPhoneNumberFormatError
    ⟨⟨"Bob"⟩, [⟨"1111111111"⟩], none⟩ rfl⟩

theorem digitVal_digitChar {n : Nat} (h : n ≤ 9) :
    digitVal (digitChar n) = n := by
  interval_cases n <;> rfl

theorem isNd_digitChar (n : Nat) : isNdDigit (digitChar n) = true := by
  unfold digitChar
  split <;> rfl

theorem ndVal_digitChar {n : Nat} (h : n ≤ 9) :
    ndVal (digitChar n) = n := by
  interval_cases n <;> rfl

theorem parseDay_pad2 (d : Nat) (h1 : 1 ≤ d) (h2 : d ≤ 31)
    (rest : List Char) : parseDay (pad2Chars d ++ rest) = some (d, rest) := by
  interval_cases d <;> rfl

theorem parseMonth_pad2 (m : Nat) (h1 : 1 ≤ m) (h2 : m ≤ 12)
    (rest : List Char) :
    parseMonth (pad2Chars m ++ rest) = some (m, rest) := by
  interval_cases m <;> rfl

theorem parseYear4_pad4 (y : Nat) (h : y ≤ 9999) (rest : List Char) :
    parseYear4 (pad4Chars y ++ rest) = some (y, rest) := by
  have hm : ∀ k : Nat, k % 10 ≤ 9 := fun k =>
    Nat.le_of_lt_succ (Nat.mod_lt _ (by norm_num))
  show parseYear4 (digitChar (y / 1000 % 10) :: digitChar (y / 100 % 10)
    :: digitChar (y / 10 % 10) :: digitChar (y % 10) :: rest) = some (y, rest)
  rw [parseYear4]
  rw [if_pos ⟨isNd_digitChar _, isNd_digitChar _, isNd_digitChar _,
    isNd_digitChar _⟩]
  rw [ndVal_digitChar (hm _), ndVal_digitChar (hm _),
    ndVal_digitChar (hm _), ndVal_digitChar (hm _)]
  have : 1000 * (y / 1000 % 10) + 100 * (y / 100 % 10) + 10 * (y / 10 % 10)
      + y % 10 = y := by omega
  rw [this]

theorem yearChars_4digit (y : Nat) (h1 : 1000 ≤ y) (h2 : y ≤ 9999) :
    yearChars y = pad4Chars y := by
  rw [yearChars, if_neg (by omega), if_neg (by omega), if_neg (by omega)]

theorem parseDMY_render (y m d : Nat) (hy1 : 1000 ≤ y) (hy : y ≤ 9999)
    (hm1 : 1 ≤ m) (hm : m ≤ 12) (hd1 : 1 ≤ d) (hd : d ≤ 31) :
    parseDMY (renderDMY ⟨y, m, d⟩) = some (d, m, y) := by
  show (match parseDay (pad2Chars d ++ '.' :: (pad2Chars m ++ '.'
      :: yearChars y)) with
    | none => none
    | some (d, rest1) =>
      match expectDot rest1 with
      | none => none
      | some rest2 =>
        match parseMonth rest2 with
        | none => none
        | some (m, rest3) =>
          match expectDot rest3 with
          | none => none
          | some rest4 =>
            match parseYear4 rest4 with
            | none => none
            | some (y, rest5) =>
              if rest5 = [] then some (d, m, y) else none) = some (d, m, y)
  rw [parseDay_pad2 d hd1 hd]
  show (match parseMonth (pad2Chars m ++ '.' :: yearChars y) with
    | none => none
    | some (m, rest3) =>
      match expectDot rest3 with
      | none => none
      | some rest4 =>
        match parseYear4 rest4 with
        | none => none
        | some (y, rest5) =>
          if rest5 = [] then some (d, m, y) else none) = some (d, m, y)
  rw [parseMonth_pad2 m hm1 hm]
  show (match parseYear4 (yearChars y) with
    | none => none
    | some (y, rest5) =>
      if rest5 = [] then some (d, m, y) else none) = some (d, m, y)
  rw [yearChars_4digit y hy1 hy,
    show pad4Chars y = pad4Chars y ++ [] from (List.append_nil _).symm,
    parseYear4_pad4 y hy]
  rfl

/-- C6 (counterexample): "08.06.0042" is a well-formed `DD.MM.YYYY`
rendering of the real calendar date year 42, June 8; `Birthday` parses
it, but re-rendering yields "08.06.42" — `strftime`'s `%Y` does not
zero-pad years below 1000 — so parse-then-render is not the identity on
it, refuting the round-trip claim as stated. -/
theorem C6_counterexample :
    mkBirthday "08.06.0042" = .ok ⟨⟨42, 6, 8⟩⟩
    ∧ Birthday.toStr ⟨⟨42, 6, 8⟩⟩ = "08.06.42"
    ∧ ("08.06.42" : String) ≠ "08.06.0042" :=
  ⟨rfl, rfl, by decide⟩

/-- C6 (amended): for real calendar dates with a four-digit year
(1000 ≤ year ≤ 9999) the `DD.MM.YYYY` rendering parses back to exactly
that date and re-renders identically; for years below 1000 the rendering
drops leading zeros, breaking the identity.  Every string that does not
match the `DD.MM.YYYY` pattern fails with `InvalidBirthdayFormatError`,
and every string that matches the pattern but denotes an impossible date
(e.g. 31.02) also fails — a successful construction stores exactly the
parsed day, month and year, never a rolled-over date. -/
theorem C6_birthday_parse_render (y m d : Nat) (s : String)
    (h : isValidDate y m d = true) (hy1 : 1000 ≤ y) :
    mkBirthday (renderDMY ⟨y, m, d⟩) = .ok ⟨⟨y, m, d⟩⟩
    ∧ Birthday.toStr ⟨⟨y, m, d⟩⟩ = renderDMY ⟨y, m, d⟩
    ∧ (parseDMY s = none →
        mkBirthday s = .error PyError.InvalidBirthdayFormatError)
    ∧ (∀ d' m' y' : Nat, parseDMY s = some (d', m', y') →
        mkBirthday s =
          (if isValidDate y' m' d' then Except.ok ⟨⟨y', m', d'⟩⟩
           else Except.error PyError.InvalidBirthdayFormatError)) := by
  have hb : 1 ≤ y ∧ y ≤ 9999 ∧ 1 ≤ m ∧ m ≤ 12 ∧ 1 ≤ d
      ∧ d ≤ daysInMonth y m := by
    unfold isValidDate at h
    simp only [Bool.and_eq_true, decide_eq_true_eq] at h
    omega
  have hd31 : d ≤ 31 := le_trans hb.2.2.2.2.2 (daysInMonth_le_31 y m)
  refine ⟨?_, rfl, ?_, ?_⟩
  · simp only [mkBirthday,
      parseDMY_render y m d hy1 hb.2.1 hb.2.2.1 hb.2.2.2.1 hb.2.2.2.2.1 hd31,
      mkDate, h, if_true]
  · intro hp
    simp only [mkBirthday, hp]
  · intro d' m' y' hp
    by_cases hv : isValidDate y' m' d' = true
    · simp only [mkBirthday, hp, mkDate, hv, if_true]
    · simp only [mkBirthday, hp, mkDate]
      rw [if_neg (by simp only [hv]; exact Bool.false_ne_true),
        if_neg (by simp only [hv]; exact Bool.false_ne_true)]

/-- C6 (witness): "08.06.1990" round-trips, the malformed "32.01.2021"
(day 32 does not even match the pattern) and the impossible "31.02.2021"
(parsed, but February has no day 31) both fail. -/
theorem C6_witness :
    isValidDate 1990 6 8 = true
    ∧ renderDMY ⟨1990, 6, 8⟩ = "08.06.1990"
    ∧ mkBirthday (renderDMY ⟨1990, 6, 8⟩) = .ok ⟨⟨1990, 6, 8⟩⟩
    ∧ mkBirthday "32.01.2021" = .error PyError.InvalidBirthdayFormatError
    ∧ mkBirthday "31.02.2021" = .error PyError.InvalidBirthdayFormatError := by
  refine ⟨by decide, rfl,
    (C6_birthday_parse_render 1990 6 8 "x" (by decide) (by decide)).1,
    (C6_birthday_parse_render 1990 6 8 "32.01.2021" (by decide)
      (by decide)).2.2.1 rfl, ?_⟩
  have h := (C6_birthday_parse_render 1990 6 8 "31.02.2021" (by decide)
    (by decide)).2.2.2 31 2 2021 rfl
  rw [h]
  rfl

end AB
